import Mathlib

/-
Verification of the secure-storage trusted application:
chunked write session state machine, two-phase read protocol,
and the chunked crypto session, embedded shallowly from the C source
(`secure_storage_ta.c`, chunked-write variant and crypto variant).
Machine integers are modelled as `Nat`; the persistent store and the
table of open object handles are association lists; fallible TEE
primitives whose success depends on the environment (object creation,
data append, the number of bytes the store returns for a sub-chunk,
elapsed-time measurements, random generation) take their outcome as an
explicit oracle argument.
-/

namespace SecureStorage

/-- TEE result codes used by the trusted application. -/
inductive TEE_Result where
  | success
  | badParameters
  | badState
  | itemNotFound
  | shortBuffer
  | outOfMemory
  | generic
  | notSupported
  | other (code : Nat)
deriving DecidableEq, Repr

/-- `CHUNK_SIZE` from the C source: `16 * 1024` bytes. -/
def CHUNK_SIZE : Nat := 16 * 1024

def TEE_DATA_FLAG_ACCESS_READ : Nat := 0x1
def TEE_DATA_FLAG_ACCESS_WRITE : Nat := 0x2
def TEE_DATA_FLAG_ACCESS_WRITE_META : Nat := 0x4
def TEE_DATA_FLAG_SHARE_READ : Nat := 0x10
def TEE_DATA_FLAG_OVERWRITE : Nat := 0x400

/-- Association-list lookup (first match), keyed by decidable equality. -/
def alookup {α β : Type} [DecidableEq α] : List (α × β) → α → Option β
  | [], _ => none
  | (k, v) :: rest, a => if k = a then some v else alookup rest a

/-- Remove every entry with the given key from an association list. -/
def aremove {α β : Type} [DecidableEq α] : List (α × β) → α → List (α × β)
  | [], _ => []
  | (k, v) :: rest, a =>
    if k = a then aremove rest a else (k, v) :: aremove rest a

/-- Set the value at a key in an association list (replace or append). -/
def aset {α β : Type} [DecidableEq α] : List (α × β) → α → β → List (α × β)
  | [], a, b => [(a, b)]
  | (k, v) :: rest, a, b =>
    if k = a then (a, b) :: rest else (k, v) :: aset rest a b

theorem alookup_aset_self {α β : Type} [DecidableEq α]
    (l : List (α × β)) (a : α) (b : β) : alookup (aset l a b) a = some b := by
  induction l with
  | nil => simp [aset, alookup]
  | cons hd tl ih =>
    by_cases h : hd.1 = a
    · simp [aset, alookup, h]
    · simp [aset, alookup, h, ih]

theorem alookup_aset_ne {α β : Type} [DecidableEq α]
    (l : List (α × β)) (a a' : α) (b : β) (h : a' ≠ a) :
    alookup (aset l a b) a' = alookup l a' := by
  induction l with
  | nil =>
    have h2 : ¬ (a = a') := fun hh => h hh.symm
    simp [aset, alookup, h2]
  | cons hd tl ih =>
    have h2 : ¬ (a = a') := fun hh => h hh.symm
    by_cases hk : hd.1 = a
    · simp [aset, alookup, hk, h2]
    · by_cases hk2 : hd.1 = a'
      · simp [aset, alookup, hk, hk2, h]
      · simp [aset, alookup, hk, hk2, ih]

theorem alookup_aremove_self {α β : Type} [DecidableEq α]
    (l : List (α × β)) (a : α) : alookup (aremove l a) a = none := by
  induction l with
  | nil => simp [aremove, alookup]
  | cons hd tl ih =>
    by_cases h : hd.1 = a
    · simp [aremove, h, ih]
    · simp [aremove, alookup, h, ih]

theorem alookup_aremove_ne {α β : Type} [DecidableEq α]
    (l : List (α × β)) (a a' : α) (h : a' ≠ a) :
    alookup (aremove l a) a' = alookup l a' := by
  induction l with
  | nil => simp [aremove]
  | cons hd tl ih =>
    have h2 : ¬ (a = a') := fun hh => h hh.symm
    by_cases hk : hd.1 = a
    · simp [aremove, alookup, hk, h2, ih]
    · by_cases hk2 : hd.1 = a'
      · simp [aremove, alookup, hk, hk2, h, ih]
      · simp [aremove, alookup, hk, hk2, ih]

/-- An open persistent-object handle: the identifier it refers to and the
access flags it was opened or created with. -/
structure HandleInfo where
  id : List Nat
  flags : Nat
deriving DecidableEq, Repr

/-- State of the TEE environment visible to the trusted application:
the persistent store (identifier to content bytes), the table of open
handles, and the next fresh handle number. -/
structure TEEState where
  store : List (List Nat × List Nat)
  handles : List (Nat × HandleInfo)
  nextHandle : Nat
deriving DecidableEq, Repr

/-- `TEE_CreatePersistentObject` with `TEE_DATA_FLAG_OVERWRITE` and empty
initial data: truncate-overwrite the identifier's content to empty and
return a fresh open handle carrying the given access flags. -/
def tee_createObject (st : TEEState) (id : List Nat) (flags : Nat) :
    Nat × TEEState :=
  (st.nextHandle,
   { store := aset st.store id [],
     handles := (st.nextHandle, ⟨id, flags⟩) :: st.handles,
     nextHandle := st.nextHandle + 1 })

/-- `TEE_WriteObjectData` on an open handle: append the bytes to the
content of the object the handle refers to. -/
def tee_writeData (st : TEEState) (h : Nat) (data : List Nat) : TEEState :=
  match alookup st.handles h with
  | none => st
  | some info =>
    match alookup st.store info.id with
    | none => st
    | some content =>
      { st with store := aset st.store info.id (content ++ data) }

/-- `TEE_CloseObject`: drop the handle from the open-handle table. -/
def tee_closeObject (st : TEEState) (h : Nat) : TEEState :=
  { st with handles := aremove st.handles h }

/-- `TEE_CloseAndDeletePersistentObject1`: drop the handle and delete the
object it refers to from the store. -/
def tee_closeAndDelete (st : TEEState) (h : Nat) : TEEState :=
  match alookup st.handles h with
  | none => { st with handles := aremove st.handles h }
  | some info =>
    { st with
      handles := aremove st.handles h,
      store := aremove st.store info.id }

/-- `struct write_session` from the C source. -/
structure write_session where
  object : Nat
  in_progress : Bool
deriving DecidableEq, Repr

/-- Access flags used by `write_raw_chunk` when creating the object for a
first chunk (C source lines 167-169): write, write-meta and overwrite;
note the source does not request read access here. -/
def write_chunk_flags : Nat :=
  TEE_DATA_FLAG_ACCESS_WRITE |||
  TEE_DATA_FLAG_ACCESS_WRITE_META |||
  TEE_DATA_FLAG_OVERWRITE

/-- Tail of `write_raw_chunk`: the `TEE_WriteObjectData` call on the
session's handle, with its outcome `writeRes` supplied by the store
oracle.  On failure the object is deleted via
`TEE_CloseAndDeletePersistentObject1` and `in_progress` is cleared. -/
def write_chunk_step (st : TEEState) (sess : write_session)
    (data : List Nat) (writeRes : TEE_Result) :
    TEE_Result × TEEState × write_session :=
  if writeRes = TEE_Result.success then
    (TEE_Result.success, tee_writeData st sess.object data, sess)
  else
    (writeRes, tee_closeAndDelete st sess.object,
     { sess with in_progress := false })

/-- `write_raw_chunk` from the C source (chunked-write variant).
`createRes` is the outcome of `TEE_CreatePersistentObject` and
`writeRes` the outcome of `TEE_WriteObjectData`, both supplied by the
environment oracle. -/
def write_raw_chunk (st : TEEState) (sess : write_session)
    (obj_id data : List Nat) (is_first : Bool)
    (createRes writeRes : TEE_Result) :
    TEE_Result × TEEState × write_session :=
  if CHUNK_SIZE < data.length then (TEE_Result.badParameters, st, sess)
  else if is_first then
    if createRes = TEE_Result.success then
      let hs := tee_createObject st obj_id write_chunk_flags
      write_chunk_step hs.2 { object := hs.1, in_progress := true }
        data writeRes
    else (createRes, st, sess)
  else if sess.in_progress = false then (TEE_Result.badState, st, sess)
  else write_chunk_step st sess data writeRes

/-- `write_raw_final` from the C source: finalize an in-progress chunked
write by closing the handle. -/
def write_raw_final (st : TEEState) (sess : write_session) :
    TEE_Result × TEEState × write_session :=
  if sess.in_progress = false then (TEE_Result.badState, st, sess)
  else (TEE_Result.success, tee_closeObject st sess.object,
        { sess with in_progress := false })

/-- `TA_CloseSessionEntryPoint` (chunked-write variant): close the
session's stored handle if a write is in progress. -/
def ta_close_session (st : TEEState) (sess : write_session) : TEEState :=
  if sess.in_progress then tee_closeObject st sess.object else st

/-- Flags used by `read_raw_object` when opening the object. -/
def read_flags : Nat :=
  TEE_DATA_FLAG_ACCESS_READ ||| TEE_DATA_FLAG_SHARE_READ

/-- The sub-chunk size `read_raw_object` requests at stream offset
`totalRead`: `CHUNK_SIZE`, capped by the bytes remaining. -/
def chunk_at (dataSize totalRead : Nat) : Nat :=
  if CHUNK_SIZE < dataSize - totalRead then CHUNK_SIZE
  else dataSize - totalRead

/-- The chunked read loop of `read_raw_object`.  `oracle off` is the
number of bytes `TEE_ReadObjectData` reports for the sub-chunk requested
at stream offset `off` (the C variable `read_bytes`); the loop requests
`chunk_at dataSize off` bytes, fails with `generic` when the reported
count differs from the requested one, and otherwise copies the
sub-chunk into the output buffer at offset `off` and continues. -/
def read_loop (content : List Nat) (dataSize : Nat) (oracle : Nat → Nat)
    (totalRead : Nat) (acc : List Nat) : TEE_Result × Nat × List Nat :=
  if h : totalRead < dataSize then
    if oracle totalRead = chunk_at dataSize totalRead then
      read_loop content dataSize oracle
        (totalRead + chunk_at dataSize totalRead)
        (acc ++ (content.drop totalRead).take (chunk_at dataSize totalRead))
    else (TEE_Result.generic, totalRead, acc)
  else (TEE_Result.success, totalRead, acc)
termination_by dataSize - totalRead
decreasing_by
  simp only [chunk_at, CHUNK_SIZE]
  split <;> omega

/-- `read_raw_object` from the C source: open the object, compare its
`dataSize` against the supplied output-buffer size `data_sz`, answer
`shortBuffer` carrying the required size when the buffer is too small,
and otherwise stream the content out in sub-chunks.  Returns the result
code, the final value of the output size field, the bytes copied into
the output buffer, and the resulting TEE state. -/
def read_raw_object (st : TEEState) (obj_id : List Nat) (data_sz : Nat)
    (oracle : Nat → Nat) : TEE_Result × Nat × List Nat × TEEState :=
  match alookup st.store obj_id with
  | none => (TEE_Result.itemNotFound, data_sz, [], st)
  | some content =>
    let st1 : TEEState :=
      { st with
        handles := (st.nextHandle, ⟨obj_id, read_flags⟩) :: st.handles,
        nextHandle := st.nextHandle + 1 }
    let stF := tee_closeObject st1 st.nextHandle
    if data_sz < content.length then
      (TEE_Result.shortBuffer, content.length, [], stF)
    else
      let r := read_loop content content.length oracle 0 []
      if r.1 = TEE_Result.success then
        (TEE_Result.success, r.2.1, r.2.2, stF)
      else (r.1, data_sz, r.2.2, stF)

/-- The store behaving as specified: `TEE_ReadObjectData` reports exactly
the requested sub-chunk size at every offset. -/
def honest_read (content : List Nat) : Nat → Nat := fun off =>
  chunk_at content.length off

/-- A cipher-engine handle: the key it was keyed with and its running
state, seeded from the initialization vector by `TEE_CipherInit`. -/
structure CipherEngine where
  key : List Nat
  cst : List Nat
deriving DecidableEq, Repr

/-- `struct crypto_session` from the crypto-variant C source.  The
operation handles are `Option CipherEngine`, `none` standing for
`TEE_HANDLE_NULL`. -/
structure crypto_session where
  enc_op : Option CipherEngine
  dec_op : Option CipherEngine
  key_handle : List Nat
  iv : List Nat
  initialized : Bool
  total_enc_time_us : Nat
  total_dec_time_us : Nat
  total_bytes : Nat
deriving DecidableEq, Repr

/-- The session as built by `TA_OpenSessionEntryPoint` (crypto variant):
zero-filled, with null operation handles. -/
def crypto_session_open : crypto_session :=
  { enc_op := none, dec_op := none, key_handle := [], iv := [],
    initialized := false, total_enc_time_us := 0, total_dec_time_us := 0,
    total_bytes := 0 }

/-- `init_crypto_key` from the C source: generate the session key and
the session IV (the randomness drawn by `TEE_GenerateRandom` is supplied
as `keyRand` and `ivRand`) and store them in the session. -/
def init_crypto_key (sess : crypto_session) (keyRand ivRand : List Nat) :
    crypto_session :=
  { sess with key_handle := keyRand, iv := ivRand }

/-- `init_encryption` from the C source: allocate a fresh encryption
engine, key it with the session key, and apply the session IV. -/
def init_encryption (sess : crypto_session) : crypto_session :=
  { sess with enc_op := some ⟨sess.key_handle, sess.iv⟩ }

/-- `init_decryption` from the C source: allocate a fresh decryption
engine, key it with the session key, and apply the session IV. -/
def init_decryption (sess : crypto_session) : crypto_session :=
  { sess with dec_op := some ⟨sess.key_handle, sess.iv⟩ }

/-- The `is_first` block of `encrypt_chunk`: generate key and IV if the
session is not yet initialized, allocate and key a fresh encryption
engine, and reset the cumulative encrypt-time and byte counters. -/
def encrypt_first_init (sess : crypto_session) (is_first : Bool)
    (keyRand ivRand : List Nat) : crypto_session :=
  if is_first then
    { init_encryption
        (if sess.initialized = false then
          { init_crypto_key sess keyRand ivRand with initialized := true }
        else sess) with
      total_enc_time_us := 0, total_bytes := 0 }
  else sess

/-- The `TEE_CipherUpdate` tail of `encrypt_chunk`.  `E key cst input`
is the cipher update primitive, returning the produced bytes and the
advanced engine state; `elapsed` is the measured duration of the cipher
call.  `none` is the panic on a null operation handle. -/
def cipher_update_enc
    (E : List Nat → List Nat → List Nat → List Nat × List Nat)
    (sess : crypto_session) (plaintext : List Nat) (elapsed : Nat) :
    Option (TEE_Result × crypto_session × Option (List Nat × Nat)) :=
  match sess.enc_op with
  | none => none
  | some eng =>
    some (TEE_Result.success,
      { sess with
        enc_op := some ⟨eng.key, (E eng.key eng.cst plaintext).2⟩,
        total_enc_time_us :=
          (sess.total_enc_time_us + elapsed) % 4294967296,
        total_bytes := sess.total_bytes + plaintext.length },
      some ((E eng.key eng.cst plaintext).1, elapsed))

/-- `encrypt_chunk` from the C source.  The outer `Option` is `none`
when the code would panic (cipher update on a null operation handle);
the inner `Option` holds the output parameters (ciphertext bytes and
reported elapsed time) when the call reaches them. -/
def encrypt_chunk (E : List Nat → List Nat → List Nat → List Nat × List Nat)
    (sess : crypto_session) (plaintext : List Nat) (is_first : Bool)
    (keyRand ivRand : List Nat) (elapsed : Nat) :
    Option (TEE_Result × crypto_session × Option (List Nat × Nat)) :=
  if CHUNK_SIZE < plaintext.length then
    some (TEE_Result.badParameters, sess, none)
  else if plaintext.length % 16 ≠ 0 then
    some (TEE_Result.badParameters,
      encrypt_first_init sess is_first keyRand ivRand, none)
  else
    cipher_update_enc E (encrypt_first_init sess is_first keyRand ivRand)
      plaintext elapsed

/-- The `TEE_CipherUpdate` tail of `decrypt_chunk`. -/
def cipher_update_dec
    (E : List Nat → List Nat → List Nat → List Nat × List Nat)
    (sess : crypto_session) (ciphertext : List Nat) (elapsed : Nat) :
    Option (TEE_Result × crypto_session × Option (List Nat × Nat)) :=
  match sess.dec_op with
  | none => none
  | some eng =>
    some (TEE_Result.success,
      { sess with
        dec_op := some ⟨eng.key, (E eng.key eng.cst ciphertext).2⟩,
        total_dec_time_us :=
          (sess.total_dec_time_us + elapsed) % 4294967296 },
      some ((E eng.key eng.cst ciphertext).1, elapsed))

/-- `decrypt_chunk` from the C source, with the same conventions as
`encrypt_chunk`.  Note the code checks `initialized` only under
`is_first`; with `is_first=false` on a session whose decryption handle
is still null it calls `TEE_CipherUpdate` on `TEE_HANDLE_NULL`, which
panics (`none`). -/
def decrypt_chunk (E : List Nat → List Nat → List Nat → List Nat × List Nat)
    (sess : crypto_session) (ciphertext : List Nat) (is_first : Bool)
    (elapsed : Nat) :
    Option (TEE_Result × crypto_session × Option (List Nat × Nat)) :=
  if CHUNK_SIZE < ciphertext.length then
    some (TEE_Result.badParameters, sess, none)
  else if is_first then
    if sess.initialized = false then
      some (TEE_Result.badState, sess, none)
    else
      cipher_update_dec E
        { init_decryption sess with total_dec_time_us := 0 }
        ciphertext elapsed
  else cipher_update_dec E sess ciphertext elapsed

/-- `finalize_operation` from the C source: report the cumulative
counters; the session is unchanged. -/
def finalize_operation (sess : crypto_session) :
    TEE_Result × crypto_session × Nat × Nat × Nat :=
  (TEE_Result.success, sess,
   sess.total_enc_time_us / 1000, sess.total_dec_time_us / 1000,
   sess.total_bytes % 4294967296)

/-- `reset_session` from the C source: free both cipher engines and zero
the counters; the key, IV and `initialized` flag are retained. -/
def reset_session (sess : crypto_session) : TEE_Result × crypto_session :=
  (TEE_Result.success,
   { sess with
     enc_op := none, dec_op := none, total_enc_time_us := 0,
     total_dec_time_us := 0, total_bytes := 0 })

/-- Claim C1: whenever a WRITE_CHUNK command reaches the append and the
append fails, the partially written object is deleted (a subsequent read
of its identifier yields `itemNotFound`), the session's `in_progress`
flag is cleared, and the append error is returned to the caller. -/
theorem write_chunk_append_failure_rolls_back
    (st : TEEState) (sess : write_session)
    (obj_id data : List Nat) (is_first : Bool)
    (createRes writeRes : TEE_Result) (tid : List Nat)
    (hlen : data.length ≤ CHUNK_SIZE)
    (hfail : writeRes ≠ TEE_Result.success)
    (hcase : (is_first = true ∧ createRes = TEE_Result.success
                ∧ tid = obj_id)
      ∨ (is_first = false ∧ sess.in_progress = true
         ∧ ∃ fl, alookup st.handles sess.object = some ⟨tid, fl⟩)) :
    (write_raw_chunk st sess obj_id data is_first createRes writeRes).1
      = writeRes
    ∧ (write_raw_chunk st sess obj_id data is_first createRes
        writeRes).2.2.in_progress = false
    ∧ alookup (write_raw_chunk st sess obj_id data is_first createRes
        writeRes).2.1.store tid = none
    ∧ ∀ (dsz : Nat) (orc : Nat → Nat),
        (read_raw_object (write_raw_chunk st sess obj_id data is_first
          createRes writeRes).2.1 tid dsz orc).1
          = TEE_Result.itemNotFound := by
  rcases hcase with ⟨hf, hc, htid⟩ | ⟨hf, hp, fl, hh⟩
  · subst hf; subst hc; subst htid
    simp only [write_raw_chunk, Nat.not_lt.mpr hlen, if_false, if_true,
      ite_true, ite_false, if_pos, write_chunk_step, hfail,
      tee_createObject, tee_closeAndDelete, alookup, if_pos rfl]
    simp [hfail, alookup_aremove_self, read_raw_object]
  · subst hf
    simp only [write_raw_chunk, Nat.not_lt.mpr hlen, hp,
      write_chunk_step, hfail, tee_closeAndDelete, hh]
    simp [hfail, hp, alookup_aremove_self, read_raw_object]

/-- Witness for C1 at a concrete input: a continuation chunk whose
append fails with a store-full error rolls back object `[1]`. -/
theorem write_chunk_append_failure_rolls_back_witness :
    (write_raw_chunk ⟨[([1], [5])], [(7, ⟨[1], 0⟩)], 8⟩ ⟨7, true⟩ [1] [9]
        false TEE_Result.success (TEE_Result.other 0xFFFF3041)).1
      = TEE_Result.other 0xFFFF3041
    ∧ (write_raw_chunk ⟨[([1], [5])], [(7, ⟨[1], 0⟩)], 8⟩ ⟨7, true⟩ [1]
        [9] false TEE_Result.success
        (TEE_Result.other 0xFFFF3041)).2.2.in_progress = false
    ∧ alookup (write_raw_chunk ⟨[([1], [5])], [(7, ⟨[1], 0⟩)], 8⟩
        ⟨7, true⟩ [1] [9] false TEE_Result.success
        (TEE_Result.other 0xFFFF3041)).2.1.store [1] = none
    ∧ ∀ (dsz : Nat) (orc : Nat → Nat),
        (read_raw_object (write_raw_chunk ⟨[([1], [5])], [(7, ⟨[1], 0⟩)],
          8⟩ ⟨7, true⟩ [1] [9] false TEE_Result.success
          (TEE_Result.other 0xFFFF3041)).2.1 [1] dsz orc).1
          = TEE_Result.itemNotFound :=
  write_chunk_append_failure_rolls_back
    ⟨[([1], [5])], [(7, ⟨[1], 0⟩)], 8⟩ ⟨7, true⟩ [1] [9] false
    TEE_Result.success (TEE_Result.other 0xFFFF3041)
    [1] (by decide) (by decide)
    (Or.inr ⟨rfl, rfl, 0, by decide⟩)

/-- Claim C2: a continuation chunk with no write in progress yields
`badState` with no store or session mutation; WRITE_FINAL with no write
in progress yields `badState`; WRITE_FINAL with a write in progress
closes the handle, clears `in_progress` and returns success. -/
theorem write_sequencing_bad_state
    (st : TEEState) (sess : write_session)
    (obj_id data : List Nat) (createRes writeRes : TEE_Result)
    (hlen : data.length ≤ CHUNK_SIZE)
    (hprog : sess.in_progress = false) :
    write_raw_chunk st sess obj_id data false createRes writeRes
      = (TEE_Result.badState, st, sess)
    ∧ write_raw_final st sess = (TEE_Result.badState, st, sess)
    ∧ ∀ sess2 : write_session, sess2.in_progress = true →
        write_raw_final st sess2
          = (TEE_Result.success, tee_closeObject st sess2.object,
             { sess2 with in_progress := false }) := by
  refine ⟨?_, ?_, ?_⟩
  · simp [write_raw_chunk, Nat.not_lt.mpr hlen, hprog]
  · simp [write_raw_final, hprog]
  · intro sess2 h2
    simp [write_raw_final, h2]

/-- Witness for C2 at a concrete input. -/
theorem write_sequencing_bad_state_witness :
    write_raw_chunk ⟨[], [], 0⟩ ⟨0, false⟩ [1] [2] false
        TEE_Result.success TEE_Result.success
      = (TEE_Result.badState, ⟨[], [], 0⟩, ⟨0, false⟩)
    ∧ write_raw_final ⟨[], [], 0⟩ ⟨0, false⟩
      = (TEE_Result.badState, ⟨[], [], 0⟩, ⟨0, false⟩)
    ∧ ∀ sess2 : write_session, sess2.in_progress = true →
        write_raw_final ⟨[], [], 0⟩ sess2
          = (TEE_Result.success, tee_closeObject ⟨[], [], 0⟩ sess2.object,
             { sess2 with in_progress := false }) :=
  write_sequencing_bad_state ⟨[], [], 0⟩ ⟨0, false⟩ [1] [2]
    TEE_Result.success TEE_Result.success (by decide) rfl

/-- Claim C5 counterexample: the first chunk of a chunked write creates
the object with flags write+write-meta+overwrite (0x406), not the
read+write+write-meta+overwrite combination (0x407) the claim states. -/
theorem write_chunk_flags_counterexample :
    alookup ((write_raw_chunk ⟨[], [], 0⟩ ⟨0, false⟩ [1] [2] true
        TEE_Result.success TEE_Result.success).2.1).handles 0
      = some ⟨[1], TEE_DATA_FLAG_ACCESS_WRITE |||
          TEE_DATA_FLAG_ACCESS_WRITE_META ||| TEE_DATA_FLAG_OVERWRITE⟩
    ∧ TEE_DATA_FLAG_ACCESS_WRITE ||| TEE_DATA_FLAG_ACCESS_WRITE_META |||
        TEE_DATA_FLAG_OVERWRITE
      ≠ TEE_DATA_FLAG_ACCESS_READ ||| TEE_DATA_FLAG_ACCESS_WRITE |||
          TEE_DATA_FLAG_ACCESS_WRITE_META ||| TEE_DATA_FLAG_OVERWRITE := by
  constructor
  · decide
  · decide

/-- Claim C5 (amended): a WRITE_CHUNK with `is_first=true` creates or
truncate-overwrites the object named by the identifier using the access
flags write+write-meta+overwrite (the source requests no read access
here), stores the fresh handle in the session, sets `in_progress=true`,
and appends the chunk's bytes. -/
theorem write_chunk_first_creates
    (st : TEEState) (sess : write_session) (obj_id data : List Nat)
    (hlen : data.length ≤ CHUNK_SIZE) :
    (write_raw_chunk st sess obj_id data true TEE_Result.success
        TEE_Result.success).1 = TEE_Result.success
    ∧ (write_raw_chunk st sess obj_id data true TEE_Result.success
        TEE_Result.success).2.2 = ⟨st.nextHandle, true⟩
    ∧ alookup (write_raw_chunk st sess obj_id data true TEE_Result.success
        TEE_Result.success).2.1.handles st.nextHandle
      = some ⟨obj_id, write_chunk_flags⟩
    ∧ alookup (write_raw_chunk st sess obj_id data true TEE_Result.success
        TEE_Result.success).2.1.store obj_id = some data := by
  simp [write_raw_chunk, Nat.not_lt.mpr hlen, write_chunk_step,
    tee_createObject, tee_writeData, alookup, alookup_aset_self]

/-- Witness for C5 (amended) at a concrete input. -/
theorem write_chunk_first_creates_witness :
    (write_raw_chunk ⟨[], [], 0⟩ ⟨0, false⟩ [1] [2, 3] true
        TEE_Result.success TEE_Result.success).1 = TEE_Result.success
    ∧ (write_raw_chunk ⟨[], [], 0⟩ ⟨0, false⟩ [1] [2, 3] true
        TEE_Result.success TEE_Result.success).2.2 = ⟨0, true⟩
    ∧ alookup (write_raw_chunk ⟨[], [], 0⟩ ⟨0, false⟩ [1] [2, 3] true
        TEE_Result.success TEE_Result.success).2.1.handles 0
      = some ⟨[1], write_chunk_flags⟩
    ∧ alookup (write_raw_chunk ⟨[], [], 0⟩ ⟨0, false⟩ [1] [2, 3] true
        TEE_Result.success TEE_Result.success).2.1.store [1]
      = some [2, 3] :=
  write_chunk_first_creates ⟨[], [], 0⟩ ⟨0, false⟩ [1] [2, 3] (by decide)

/-- Claim C9: a first chunk arriving while a write is already in
progress overwrites the stored handle with the new object's handle; the
previous handle stays open (it is neither closed nor rolled back) and
session close closes only the currently stored handle. -/
theorem write_chunk_first_abandons_old_handle
    (st : TEEState) (sess : write_session) (obj_id data : List Nat)
    (info : HandleInfo) (oldContent : List Nat)
    (hprog : sess.in_progress = true)
    (hlen : data.length ≤ CHUNK_SIZE)
    (hhandle : alookup st.handles sess.object = some info)
    (hfresh : sess.object ≠ st.nextHandle)
    (hold : alookup st.store info.id = some oldContent)
    (hne : info.id ≠ obj_id) :
    (write_raw_chunk st sess obj_id data true TEE_Result.success
        TEE_Result.success).1 = TEE_Result.success
    ∧ (write_raw_chunk st sess obj_id data true TEE_Result.success
        TEE_Result.success).2.2 = ⟨st.nextHandle, true⟩
    ∧ alookup (write_raw_chunk st sess obj_id data true TEE_Result.success
        TEE_Result.success).2.1.handles sess.object = some info
    ∧ alookup (write_raw_chunk st sess obj_id data true TEE_Result.success
        TEE_Result.success).2.1.store info.id = some oldContent
    ∧ alookup (ta_close_session
        (write_raw_chunk st sess obj_id data true TEE_Result.success
          TEE_Result.success).2.1
        (write_raw_chunk st sess obj_id data true TEE_Result.success
          TEE_Result.success).2.2).handles sess.object = some info
    ∧ alookup (ta_close_session
        (write_raw_chunk st sess obj_id data true TEE_Result.success
          TEE_Result.success).2.1
        (write_raw_chunk st sess obj_id data true TEE_Result.success
          TEE_Result.success).2.2).handles st.nextHandle = none := by
  simp only [write_raw_chunk, Nat.not_lt.mpr hlen, write_chunk_step,
    tee_createObject, tee_writeData, alookup, if_pos rfl, ite_true,
    ite_false, ta_close_session, tee_closeObject]
  refine ⟨by simp, by simp, ?_, ?_, ?_, ?_⟩
  · simp [alookup, Ne.symm hfresh, hhandle, alookup_aset_self]
  · simp [alookup_aset_self, alookup_aset_ne _ _ _ _ hne, hold]
  · simp [alookup, Ne.symm hfresh, hhandle, alookup_aset_self,
      alookup_aremove_ne _ _ _ hfresh, aremove]
  · simp [alookup_aremove_self, alookup_aset_self]

/-- Witness for C9 at a concrete input: object `[1]` is mid-write on
handle 7 when a first chunk for object `[2]` arrives. -/
theorem write_chunk_first_abandons_old_handle_witness :
    (write_raw_chunk ⟨[([1], [5])], [(7, ⟨[1], 0x406⟩)], 8⟩ ⟨7, true⟩ [2]
        [9] true TEE_Result.success TEE_Result.success).1
      = TEE_Result.success
    ∧ (write_raw_chunk ⟨[([1], [5])], [(7, ⟨[1], 0x406⟩)], 8⟩ ⟨7, true⟩
        [2] [9] true TEE_Result.success TEE_Result.success).2.2
      = ⟨8, true⟩
    ∧ alookup (write_raw_chunk ⟨[([1], [5])], [(7, ⟨[1], 0x406⟩)], 8⟩
        ⟨7, true⟩ [2] [9] true TEE_Result.success
        TEE_Result.success).2.1.handles 7 = some ⟨[1], 0x406⟩
    ∧ alookup (write_raw_chunk ⟨[([1], [5])], [(7, ⟨[1], 0x406⟩)], 8⟩
        ⟨7, true⟩ [2] [9] true TEE_Result.success
        TEE_Result.success).2.1.store [1] = some [5]
    ∧ alookup (ta_close_session
        (write_raw_chunk ⟨[([1], [5])], [(7, ⟨[1], 0x406⟩)], 8⟩ ⟨7, true⟩
          [2] [9] true TEE_Result.success TEE_Result.success).2.1
        (write_raw_chunk ⟨[([1], [5])], [(7, ⟨[1], 0x406⟩)], 8⟩ ⟨7, true⟩
          [2] [9] true TEE_Result.success
          TEE_Result.success).2.2).handles 7 = some ⟨[1], 0x406⟩
    ∧ alookup (ta_close_session
        (write_raw_chunk ⟨[([1], [5])], [(7, ⟨[1], 0x406⟩)], 8⟩ ⟨7, true⟩
          [2] [9] true TEE_Result.success TEE_Result.success).2.1
        (write_raw_chunk ⟨[([1], [5])], [(7, ⟨[1], 0x406⟩)], 8⟩ ⟨7, true⟩
          [2] [9] true TEE_Result.success
          TEE_Result.success).2.2).handles 8 = none :=
  write_chunk_first_abandons_old_handle
    ⟨[([1], [5])], [(7, ⟨[1], 0x406⟩)], 8⟩ ⟨7, true⟩ [2] [9]
    ⟨[1], 0x406⟩ [5] rfl (by decide) (by decide) (by decide) (by decide)
    (by decide)

/-- Claim C8: every chunked command rejects an input chunk larger than
16384 bytes with `badParameters`, leaving the session and the store
untouched. -/
theorem oversized_chunk_rejected
    (st : TEEState) (sess : write_session) (csess : crypto_session)
    (E : List Nat → List Nat → List Nat → List Nat × List Nat)
    (obj_id data : List Nat) (is_first : Bool)
    (createRes writeRes : TEE_Result) (keyRand ivRand : List Nat)
    (elapsed : Nat) (hlen : CHUNK_SIZE < data.length) :
    write_raw_chunk st sess obj_id data is_first createRes writeRes
      = (TEE_Result.badParameters, st, sess)
    ∧ encrypt_chunk E csess data is_first keyRand ivRand elapsed
      = some (TEE_Result.badParameters, csess, none)
    ∧ decrypt_chunk E csess data is_first elapsed
      = some (TEE_Result.badParameters, csess, none) := by
  refine ⟨?_, ?_, ?_⟩ <;>
    simp [write_raw_chunk, encrypt_chunk, decrypt_chunk, hlen]

/-- Witness for C8 at a concrete input: a chunk of 16385 zero bytes. -/
theorem oversized_chunk_rejected_witness :
    write_raw_chunk ⟨[], [], 0⟩ ⟨0, false⟩ [1] (List.replicate 16385 0)
        true TEE_Result.success TEE_Result.success
      = (TEE_Result.badParameters, ⟨[], [], 0⟩, ⟨0, false⟩)
    ∧ encrypt_chunk (fun _ c x => (x, c)) crypto_session_open
        (List.replicate 16385 0) true [] [] 0
      = some (TEE_Result.badParameters, crypto_session_open, none)
    ∧ decrypt_chunk (fun _ c x => (x, c)) crypto_session_open
        (List.replicate 16385 0) true 0
      = some (TEE_Result.badParameters, crypto_session_open, none) :=
  oversized_chunk_rejected ⟨[], [], 0⟩ ⟨0, false⟩ crypto_session_open
    (fun _ c x => (x, c)) [1] (List.replicate 16385 0) true
    TEE_Result.success TEE_Result.success [] [] 0
    (by simp only [List.length_replicate, CHUNK_SIZE]; omega)

theorem encrypt_first_init_initialized (sess : crypto_session)
    (b : Bool) (kR iR : List Nat) (h : sess.initialized = true) :
    (encrypt_first_init sess b kR iR).initialized = true := by
  cases b <;>
    simp [encrypt_first_init, init_encryption, init_crypto_key, h]

theorem cipher_update_enc_initialized
    (E : List Nat → List Nat → List Nat → List Nat × List Nat)
    (sess : crypto_session) (pt : List Nat) (t : Nat)
    (r : TEE_Result) (s' : crypto_session)
    (o : Option (List Nat × Nat))
    (heq : cipher_update_enc E sess pt t = some (r, s', o)) :
    s'.initialized = sess.initialized := by
  cases hop : sess.enc_op with
  | none => simp [cipher_update_enc, hop] at heq
  | some eng =>
    simp [cipher_update_enc, hop] at heq
    rw [← heq.2.1]

theorem cipher_update_dec_initialized
    (E : List Nat → List Nat → List Nat → List Nat × List Nat)
    (sess : crypto_session) (ct : List Nat) (t : Nat)
    (r : TEE_Result) (s' : crypto_session)
    (o : Option (List Nat × Nat))
    (heq : cipher_update_dec E sess ct t = some (r, s', o)) :
    s'.initialized = sess.initialized := by
  cases hop : sess.dec_op with
  | none => simp [cipher_update_dec, hop] at heq
  | some eng =>
    simp [cipher_update_dec, hop] at heq
    rw [← heq.2.1]

/-- Claim C6 counterexample: on a fresh, never-initialized session a
DECRYPT_CHUNK with `is_first=false` does not return `badState`; the
code reaches `TEE_CipherUpdate` with the null decryption handle and
panics (`none`). -/
theorem decrypt_uninit_continuation_counterexample :
    decrypt_chunk (fun _ c x => (x, c)) crypto_session_open [0] false 0
      = none
    ∧ ¬ ∃ (s : crypto_session) (o : Option (List Nat × Nat)),
        decrypt_chunk (fun _ c x => (x, c)) crypto_session_open [0]
            false 0
          = some (TEE_Result.badState, s, o) := by
  refine ⟨rfl, ?_⟩
  rintro ⟨s, o, h⟩
  rw [show decrypt_chunk (fun _ c x => (x, c)) crypto_session_open [0]
      false 0 = none from rfl] at h
  exact Option.noConfusion h

/-- Claim C6 (amended): a DECRYPT_CHUNK with `is_first=true` before any
encrypt call has initialized the session's crypto state returns
`badState` with no cipher operation and no session change; a
DECRYPT_CHUNK with `is_first=false` while the decryption handle is
still null instead invokes the cipher update on a null operation handle
(a panic, not a `badState` return). -/
theorem decrypt_uninit_bad_state
    (E : List Nat → List Nat → List Nat → List Nat × List Nat)
    (sess : crypto_session) (ct : List Nat) (t : Nat)
    (hlen : ct.length ≤ CHUNK_SIZE)
    (hinit : sess.initialized = false) :
    decrypt_chunk E sess ct true t
      = some (TEE_Result.badState, sess, none)
    ∧ (sess.dec_op = none → decrypt_chunk E sess ct false t = none) := by
  constructor
  · simp [decrypt_chunk, Nat.not_lt.mpr hlen, hinit]
  · intro hd
    simp [decrypt_chunk, Nat.not_lt.mpr hlen, cipher_update_dec, hd]

/-- Witness for C6 (amended) at a concrete input. -/
theorem decrypt_uninit_bad_state_witness :
    decrypt_chunk (fun _ c x => (x, c)) crypto_session_open [0] true 0
      = some (TEE_Result.badState, crypto_session_open, none)
    ∧ (crypto_session_open.dec_op = none →
        decrypt_chunk (fun _ c x => (x, c)) crypto_session_open [0]
          false 0 = none) :=
  decrypt_uninit_bad_state (fun _ c x => (x, c)) crypto_session_open [0]
    0 (by decide) rfl

/-- Claim C7: the session key and IV are generated exactly once, on the
first ENCRYPT_CHUNK with `is_first=true` (`initialized` goes from false
to true and stays true across every later command); every later stream
start (encrypt or decrypt with `is_first=true`) allocates a fresh cipher
engine seeded with the same session key and the same session IV; and
the only output parameters of an encrypt call are the cipher image
`(E key iv pt).1` and the elapsed time, so the key leaves the session
only through the cipher engine, never copied to an output parameter
(the result code and elapsed output are identical for any two keys). -/
theorem crypto_key_iv_lifecycle
    (E : List Nat → List Nat → List Nat → List Nat × List Nat)
    (sess : crypto_session) (pt ct keyRand ivRand : List Nat) (t : Nat)
    (hpt : pt.length ≤ CHUNK_SIZE) (hpta : pt.length % 16 = 0)
    (hct : ct.length ≤ CHUNK_SIZE) :
    (sess.initialized = false →
      encrypt_chunk E sess pt true keyRand ivRand t
        = some (TEE_Result.success,
            { sess with
              key_handle := keyRand, iv := ivRand, initialized := true,
              enc_op := some ⟨keyRand, (E keyRand ivRand pt).2⟩,
              total_enc_time_us := t % 4294967296,
              total_bytes := pt.length },
            some ((E keyRand ivRand pt).1, t)))
    ∧ (sess.initialized = true →
      encrypt_chunk E sess pt true keyRand ivRand t
        = some (TEE_Result.success,
            { sess with
              enc_op := some ⟨sess.key_handle,
                (E sess.key_handle sess.iv pt).2⟩,
              total_enc_time_us := t % 4294967296,
              total_bytes := pt.length },
            some ((E sess.key_handle sess.iv pt).1, t)))
    ∧ (sess.initialized = true →
      decrypt_chunk E sess ct true t
        = some (TEE_Result.success,
            { sess with
              dec_op := some ⟨sess.key_handle,
                (E sess.key_handle sess.iv ct).2⟩,
              total_dec_time_us := t % 4294967296 },
            some ((E sess.key_handle sess.iv ct).1, t)))
    ∧ (∀ (pt' : List Nat) (b : Bool) (kR iR : List Nat) (t' : Nat)
        (r : TEE_Result) (s' : crypto_session)
        (o : Option (List Nat × Nat)),
        sess.initialized = true →
        encrypt_chunk E sess pt' b kR iR t' = some (r, s', o) →
        s'.initialized = true)
    ∧ (∀ (ct' : List Nat) (b : Bool) (t' : Nat) (r : TEE_Result)
        (s' : crypto_session) (o : Option (List Nat × Nat)),
        sess.initialized = true →
        decrypt_chunk E sess ct' b t' = some (r, s', o) →
        s'.initialized = true)
    ∧ (reset_session sess).2.initialized = sess.initialized
    ∧ (finalize_operation sess).2.1 = sess
    ∧ (∀ k1 k2 : List Nat,
        (encrypt_chunk E
            { sess with
              key_handle := k1,
              initialized := true }
            pt true keyRand ivRand t).map
            (fun x => (x.1, x.2.2.map Prod.snd))
        = (encrypt_chunk E
            { sess with
              key_handle := k2,
              initialized := true }
            pt true keyRand ivRand t).map
            (fun x => (x.1, x.2.2.map Prod.snd))) := by
  refine ⟨?_, ?_, ?_, ?_, ?_, ?_, ?_, ?_⟩
  · intro hinit
    simp [encrypt_chunk, encrypt_first_init, init_crypto_key,
      init_encryption, cipher_update_enc, hinit, Nat.not_lt.mpr hpt,
      hpta]
  · intro hinit
    simp [encrypt_chunk, encrypt_first_init, init_crypto_key,
      init_encryption, cipher_update_enc, hinit, Nat.not_lt.mpr hpt,
      hpta]
  · intro hinit
    simp [decrypt_chunk, init_decryption, cipher_update_dec, hinit,
      Nat.not_lt.mpr hct]
  · intro pt' b kR iR t' r s' o hinit heq
    by_cases h1 : CHUNK_SIZE < pt'.length
    · rw [encrypt_chunk, if_pos h1] at heq
      simp at heq
      rw [← heq.2.1]; exact hinit
    · by_cases h2 : pt'.length % 16 ≠ 0
      · rw [encrypt_chunk, if_neg h1, if_pos h2] at heq
        simp at heq
        rw [← heq.2.1]
        exact encrypt_first_init_initialized sess b kR iR hinit
      · rw [encrypt_chunk, if_neg h1, if_neg h2] at heq
        rw [cipher_update_enc_initialized E _ pt' t' r s' o heq]
        exact encrypt_first_init_initialized sess b kR iR hinit
  · intro ct' b t' r s' o hinit heq
    by_cases h1 : CHUNK_SIZE < ct'.length
    · rw [decrypt_chunk, if_pos h1] at heq
      simp at heq
      rw [← heq.2.1]; exact hinit
    · cases b with
      | true =>
        simp only [decrypt_chunk, h1, hinit, if_false, ite_true,
          ite_false, Bool.true_eq_false, if_true] at heq
        rw [cipher_update_dec_initialized E _ ct' t' r s' o heq]
        simp [init_decryption, hinit]
      | false =>
        simp only [decrypt_chunk, h1, if_false, ite_false,
          Bool.false_eq_true, if_true, ite_true] at heq
        rw [cipher_update_dec_initialized E _ ct' t' r s' o heq]
        exact hinit
  · simp [reset_session]
  · simp [finalize_operation]
  · intro k1 k2
    simp [encrypt_chunk, encrypt_first_init, init_crypto_key,
      init_encryption, cipher_update_enc, Nat.not_lt.mpr hpt, hpta]

/-- Witness for C7 at a concrete input. -/
theorem crypto_key_iv_lifecycle_witness :
    (crypto_session_open.initialized = false →
      encrypt_chunk (fun _ c x => (x, c)) crypto_session_open
          (List.replicate 16 0) true [1] [2] 5
        = some (TEE_Result.success,
            { crypto_session_open with
              key_handle := [1], iv := [2], initialized := true,
              enc_op := some ⟨[1],
                ((fun (_ c x : List Nat) => (x, c)) [1] [2]
                  (List.replicate 16 0)).2⟩,
              total_enc_time_us := 5 % 4294967296,
              total_bytes := (List.replicate 16 (0 : Nat)).length },
            some (((fun (_ c x : List Nat) => (x, c)) [1] [2]
              (List.replicate 16 0)).1, 5)))
    ∧ (crypto_session_open.initialized = true →
      encrypt_chunk (fun _ c x => (x, c)) crypto_session_open
          (List.replicate 16 0) true [1] [2] 5
        = some (TEE_Result.success,
            { crypto_session_open with
              enc_op := some ⟨crypto_session_open.key_handle,
                ((fun (_ c x : List Nat) => (x, c))
                  crypto_session_open.key_handle crypto_session_open.iv
                  (List.replicate 16 0)).2⟩,
              total_enc_time_us := 5 % 4294967296,
              total_bytes := (List.replicate 16 (0 : Nat)).length },
            some (((fun (_ c x : List Nat) => (x, c))
              crypto_session_open.key_handle crypto_session_open.iv
              (List.replicate 16 0)).1, 5)))
    ∧ (crypto_session_open.initialized = true →
      decrypt_chunk (fun _ c x => (x, c)) crypto_session_open [3] true 5
        = some (TEE_Result.success,
            { crypto_session_open with
              dec_op := some ⟨crypto_session_open.key_handle,
                ((fun (_ c x : List Nat) => (x, c))
                  crypto_session_open.key_handle crypto_session_open.iv
                  [3]).2⟩,
              total_dec_time_us := 5 % 4294967296 },
            some (((fun (_ c x : List Nat) => (x, c))
              crypto_session_open.key_handle crypto_session_open.iv
              [3]).1, 5)))
    ∧ (∀ (pt' : List Nat) (b : Bool) (kR iR : List Nat) (t' : Nat)
        (r : TEE_Result) (s' : crypto_session)
        (o : Option (List Nat × Nat)),
        crypto_session_open.initialized = true →
        encrypt_chunk (fun _ c x => (x, c)) crypto_session_open pt' b kR
            iR t' = some (r, s', o) →
        s'.initialized = true)
    ∧ (∀ (ct' : List Nat) (b : Bool) (t' : Nat) (r : TEE_Result)
        (s' : crypto_session) (o : Option (List Nat × Nat)),
        crypto_session_open.initialized = true →
        decrypt_chunk (fun _ c x => (x, c)) crypto_session_open ct' b t'
          = some (r, s', o) →
        s'.initialized = true)
    ∧ (reset_session crypto_session_open).2.initialized
      = crypto_session_open.initialized
    ∧ (finalize_operation crypto_session_open).2.1 = crypto_session_open
    ∧ (∀ k1 k2 : List Nat,
        (encrypt_chunk (fun _ c x => (x, c))
            { crypto_session_open with
              key_handle := k1,
              initialized := true }
            (List.replicate 16 0) true [1] [2]
            5).map (fun x => (x.1, x.2.2.map Prod.snd))
        = (encrypt_chunk (fun _ c x => (x, c))
            { crypto_session_open with
              key_handle := k2,
              initialized := true }
            (List.replicate 16 0) true [1] [2]
            5).map (fun x => (x.1, x.2.2.map Prod.snd))) :=
  crypto_key_iv_lifecycle (fun _ c x => (x, c)) crypto_session_open
    (List.replicate 16 0) [3] [1] [2] 5 (by decide) (by decide)
    (by decide)

/-- Claim C10: an ENCRYPT_CHUNK with `is_first=true` whose payload is
within the chunk bound but not 16-byte aligned is rejected with
`badParameters` only after the session has been mutated: the key and IV
are generated (`initialized` becomes true) if they were not already, a
fresh encryption engine keyed with the session key and seeded with the
session IV is installed, and the cumulative encrypt-time and byte
counters are reset to zero. -/
theorem encrypt_misaligned_rejection_has_side_effects
    (E : List Nat → List Nat → List Nat → List Nat × List Nat)
    (sess : crypto_session) (pt keyRand ivRand : List Nat) (t : Nat)
    (hlen : pt.length ≤ CHUNK_SIZE) (halign : pt.length % 16 ≠ 0) :
    encrypt_chunk E sess pt true keyRand ivRand t
      = some (TEE_Result.badParameters,
          encrypt_first_init sess true keyRand ivRand, none)
    ∧ (encrypt_first_init sess true keyRand ivRand).initialized = true
    ∧ (encrypt_first_init sess true keyRand ivRand).enc_op
      = some ⟨(encrypt_first_init sess true keyRand ivRand).key_handle,
              (encrypt_first_init sess true keyRand ivRand).iv⟩
    ∧ (encrypt_first_init sess true keyRand ivRand).total_enc_time_us = 0
    ∧ (encrypt_first_init sess true keyRand ivRand).total_bytes = 0
    ∧ (sess.initialized = false →
        (encrypt_first_init sess true keyRand ivRand).key_handle
          = keyRand
        ∧ (encrypt_first_init sess true keyRand ivRand).iv = ivRand)
    ∧ (sess.initialized = true →
        (encrypt_first_init sess true keyRand ivRand).key_handle
          = sess.key_handle
        ∧ (encrypt_first_init sess true keyRand ivRand).iv = sess.iv) := by
  refine ⟨?_, ?_, ?_, ?_, ?_, ?_, ?_⟩
  · simp [encrypt_chunk, Nat.not_lt.mpr hlen, halign]
  all_goals
    by_cases hinit : sess.initialized = true <;>
      simp [encrypt_first_init, init_encryption, init_crypto_key, hinit]

/-- Witness for C10 at a concrete input: a 15-byte payload. -/
theorem encrypt_misaligned_rejection_has_side_effects_witness :
    encrypt_chunk (fun _ c x => (x, c)) crypto_session_open
        (List.replicate 15 0) true [1] [2] 5
      = some (TEE_Result.badParameters,
          encrypt_first_init crypto_session_open true [1] [2], none)
    ∧ (encrypt_first_init crypto_session_open true [1] [2]).initialized
      = true
    ∧ (encrypt_first_init crypto_session_open true [1] [2]).enc_op
      = some ⟨(encrypt_first_init crypto_session_open true
                [1] [2]).key_handle,
              (encrypt_first_init crypto_session_open true [1] [2]).iv⟩
    ∧ (encrypt_first_init crypto_session_open true
        [1] [2]).total_enc_time_us = 0
    ∧ (encrypt_first_init crypto_session_open true [1] [2]).total_bytes
      = 0
    ∧ (crypto_session_open.initialized = false →
        (encrypt_first_init crypto_session_open true [1] [2]).key_handle
          = [1]
        ∧ (encrypt_first_init crypto_session_open true [1] [2]).iv = [2])
    ∧ (crypto_session_open.initialized = true →
        (encrypt_first_init crypto_session_open true [1] [2]).key_handle
          = crypto_session_open.key_handle
        ∧ (encrypt_first_init crypto_session_open true [1] [2]).iv
          = crypto_session_open.iv) :=
  encrypt_misaligned_rejection_has_side_effects (fun _ c x => (x, c))
    crypto_session_open (List.replicate 15 0) [1] [2] 5 (by decide)
    (by decide)

theorem chunk_at_pos (dataSize totalRead : Nat)
    (h : totalRead < dataSize) : 0 < chunk_at dataSize totalRead := by
  simp only [chunk_at, CHUNK_SIZE]
  split <;> omega

theorem chunk_at_le (dataSize totalRead : Nat) :
    chunk_at dataSize totalRead ≤ dataSize - totalRead := by
  simp only [chunk_at, CHUNK_SIZE]
  split <;> omega

/-- With an honest store the read loop delivers the whole content and
reports `dataSize` bytes read. -/
theorem read_loop_honest (content : List Nat) :
    ∀ (n t : Nat) (acc : List Nat), content.length - t ≤ n →
      acc = content.take t → t ≤ content.length →
      read_loop content content.length (honest_read content) t acc
        = (TEE_Result.success, content.length, content) := by
  intro n
  induction n with
  | zero =>
    intro t acc hn hacc hle
    have ht : t = content.length := by omega
    subst ht
    rw [read_loop, dif_neg (lt_irrefl _)]
    simp [hacc]
  | succ n ih =>
    intro t acc hn hacc hle
    by_cases hlt : t < content.length
    · rw [read_loop, dif_pos hlt,
        if_pos (show honest_read content t
          = chunk_at content.length t from rfl)]
      have hpos := chunk_at_pos content.length t hlt
      have hcle := chunk_at_le content.length t
      apply ih
      · omega
      · rw [hacc, ← List.take_add]
      · omega
    · have ht : t = content.length := by omega
      subst ht
      rw [read_loop, dif_neg (lt_irrefl _)]
      simp [hacc]

/-- If the store is honest for the first `m` sub-chunks and then reports
a byte count different from the requested one, the read loop fails with
`generic`. -/
theorem read_loop_short (content : List Nat) (oracle : Nat → Nat) :
    ∀ (m t : Nat) (acc : List Nat),
      t + m * CHUNK_SIZE < content.length →
      (∀ k, k < m → oracle (t + k * CHUNK_SIZE) = CHUNK_SIZE) →
      oracle (t + m * CHUNK_SIZE)
        ≠ chunk_at content.length (t + m * CHUNK_SIZE) →
      (read_loop content content.length oracle t acc).1
        = TEE_Result.generic := by
  intro m
  induction m with
  | zero =>
    intro t acc hm hhon hdev
    simp only [Nat.zero_mul, Nat.add_zero] at hm hdev
    rw [read_loop, dif_pos hm, if_neg hdev]
  | succ m ih =>
    intro t acc hm hhon hdev
    have hC : CHUNK_SIZE = 16384 := rfl
    have ht : t < content.length := by rw [hC] at hm; omega
    have hcs : chunk_at content.length t = CHUNK_SIZE := by
      simp only [chunk_at]
      rw [hC] at hm ⊢
      have : 16384 < content.length - t := by omega
      simp [this]
    have hor0 : oracle t = CHUNK_SIZE := by
      have h0 := hhon 0 (Nat.succ_pos m)
      simpa using h0
    rw [read_loop, dif_pos ht, if_pos (by rw [hor0, hcs]), hcs]
    apply ih (t + CHUNK_SIZE)
    · rw [hC] at hm ⊢; omega
    · intro k hk
      have hk1 := hhon (k + 1) (by omega)
      rw [show t + (k + 1) * CHUNK_SIZE
        = t + CHUNK_SIZE + k * CHUNK_SIZE by ring] at hk1
      exact hk1
    · rw [show t + CHUNK_SIZE + m * CHUNK_SIZE
        = t + (m + 1) * CHUNK_SIZE by ring]
      exact hdev

/-- A read with a sufficient buffer and an honest store succeeds,
reports `dataSize` bytes, and delivers the full content. -/
theorem read_raw_object_honest (st : TEEState)
    (obj_id content : List Nat) (data_sz : Nat)
    (hobj : alookup st.store obj_id = some content)
    (hsz : content.length ≤ data_sz) :
    (read_raw_object st obj_id data_sz (honest_read content)).1
      = TEE_Result.success
    ∧ (read_raw_object st obj_id data_sz (honest_read content)).2.1
      = content.length
    ∧ (read_raw_object st obj_id data_sz (honest_read content)).2.2.1
      = content := by
  have hloop := read_loop_honest content content.length 0 []
    (by omega) (by simp) (by omega)
  simp [read_raw_object, hobj, Nat.not_lt.mpr hsz, hloop]

/-- A read with an undersized buffer answers `shortBuffer`, reports the
required size, copies nothing, and leaves the store unchanged. -/
theorem read_raw_object_short (st : TEEState)
    (obj_id content : List Nat) (data_sz : Nat) (oracle : Nat → Nat)
    (hobj : alookup st.store obj_id = some content)
    (hsz : data_sz < content.length) :
    (read_raw_object st obj_id data_sz oracle).1
      = TEE_Result.shortBuffer
    ∧ (read_raw_object st obj_id data_sz oracle).2.1 = content.length
    ∧ (read_raw_object st obj_id data_sz oracle).2.2.1 = []
    ∧ (read_raw_object st obj_id data_sz oracle).2.2.2.store
      = st.store := by
  simp [read_raw_object, hobj, hsz, tee_closeObject]

/-- Claim C3: a READ of an existing object with a buffer at least as
large as its `dataSize` succeeds against an honest store, delivering
exactly the object's content with the output-size field set to
`dataSize`; and if the store reports fewer bytes than requested for any
sub-chunk actually reached, the read fails with `generic`. -/
theorem read_full_and_generic_on_short_read (st : TEEState)
    (obj_id content : List Nat) (data_sz : Nat) (oracle : Nat → Nat)
    (m : Nat)
    (hobj : alookup st.store obj_id = some content)
    (hsz : content.length ≤ data_sz)
    (hm : m * CHUNK_SIZE < content.length)
    (hhon : ∀ k, k < m → oracle (k * CHUNK_SIZE) = CHUNK_SIZE)
    (hdev : oracle (m * CHUNK_SIZE)
      ≠ chunk_at content.length (m * CHUNK_SIZE)) :
    (read_raw_object st obj_id data_sz (honest_read content)).1
      = TEE_Result.success
    ∧ (read_raw_object st obj_id data_sz (honest_read content)).2.1
      = content.length
    ∧ (read_raw_object st obj_id data_sz (honest_read content)).2.2.1
      = content
    ∧ (read_raw_object st obj_id data_sz oracle).1
      = TEE_Result.generic := by
  obtain ⟨h1, h2, h3⟩ :=
    read_raw_object_honest st obj_id content data_sz hobj hsz
  refine ⟨h1, h2, h3, ?_⟩
  have hloop := read_loop_short content oracle m 0 []
    (by simpa using hm) (by simpa using hhon) (by simpa using hdev)
  simp only [read_raw_object, hobj, Nat.not_lt.mpr hsz, if_false,
    ite_false]
  simp [Nat.not_lt.mpr hsz, hloop]

/-- Witness for C3 at a concrete input: object `[1]` holding `[7, 8]`,
read with a 2-byte buffer; the dishonest store reports 0 bytes for the
first sub-chunk. -/
theorem read_full_and_generic_on_short_read_witness :
    (read_raw_object ⟨[([1], [7, 8])], [], 0⟩ [1] 2
        (honest_read [7, 8])).1 = TEE_Result.success
    ∧ (read_raw_object ⟨[([1], [7, 8])], [], 0⟩ [1] 2
        (honest_read [7, 8])).2.1 = ([7, 8] : List Nat).length
    ∧ (read_raw_object ⟨[([1], [7, 8])], [], 0⟩ [1] 2
        (honest_read [7, 8])).2.2.1 = [7, 8]
    ∧ (read_raw_object ⟨[([1], [7, 8])], [], 0⟩ [1] 2
        (fun _ => 0)).1 = TEE_Result.generic :=
  read_full_and_generic_on_short_read ⟨[([1], [7, 8])], [], 0⟩ [1]
    [7, 8] 2 (fun _ => 0) 0 (by decide) (by decide) (by decide)
    (fun k hk => absurd hk (by omega)) (by decide)

/-- Claim C4: a READ of an existing object with a buffer strictly
smaller than its `dataSize` returns `shortBuffer` with the output-size
field set to the exact `dataSize`, copies no data, and leaves the store
unchanged; repeating the undersized read reports the same required
size, and a read with a buffer equal to the reported size succeeds with
output size equal to it. -/
theorem read_short_buffer_negotiation (st : TEEState)
    (obj_id content : List Nat) (data_sz : Nat) (oracle : Nat → Nat)
    (hobj : alookup st.store obj_id = some content)
    (hsz : data_sz < content.length) :
    (read_raw_object st obj_id data_sz oracle).1
      = TEE_Result.shortBuffer
    ∧ (read_raw_object st obj_id data_sz oracle).2.1 = content.length
    ∧ (read_raw_object st obj_id data_sz oracle).2.2.1 = []
    ∧ (read_raw_object st obj_id data_sz oracle).2.2.2.store = st.store
    ∧ (∀ orc2 : Nat → Nat,
        (read_raw_object (read_raw_object st obj_id data_sz
          oracle).2.2.2 obj_id data_sz orc2).1 = TEE_Result.shortBuffer
        ∧ (read_raw_object (read_raw_object st obj_id data_sz
            oracle).2.2.2 obj_id data_sz orc2).2.1 = content.length)
    ∧ (read_raw_object (read_raw_object st obj_id data_sz oracle).2.2.2
        obj_id content.length (honest_read content)).1
      = TEE_Result.success
    ∧ (read_raw_object (read_raw_object st obj_id data_sz oracle).2.2.2
        obj_id content.length (honest_read content)).2.1
      = content.length := by
  obtain ⟨h1, h2, h3, h4⟩ :=
    read_raw_object_short st obj_id content data_sz oracle hobj hsz
  have hobj2 : alookup (read_raw_object st obj_id data_sz
      oracle).2.2.2.store obj_id = some content := by
    rw [h4]; exact hobj
  refine ⟨h1, h2, h3, h4, ?_, ?_, ?_⟩
  · intro orc2
    obtain ⟨g1, g2, _, _⟩ := read_raw_object_short _ obj_id content
      data_sz orc2 hobj2 hsz
    exact ⟨g1, g2⟩
  · exact (read_raw_object_honest _ obj_id content content.length hobj2
      le_rfl).1
  · exact (read_raw_object_honest _ obj_id content content.length hobj2
      le_rfl).2.1

/-- Witness for C4 at a concrete input: object `[1]` holding `[7, 8]`,
first read with a 1-byte buffer. -/
theorem read_short_buffer_negotiation_witness :
    (read_raw_object ⟨[([1], [7, 8])], [], 0⟩ [1] 1 (fun _ => 0)).1
      = TEE_Result.shortBuffer
    ∧ (read_raw_object ⟨[([1], [7, 8])], [], 0⟩ [1] 1
        (fun _ => 0)).2.1 = ([7, 8] : List Nat).length
    ∧ (read_raw_object ⟨[([1], [7, 8])], [], 0⟩ [1] 1
        (fun _ => 0)).2.2.1 = []
    ∧ (read_raw_object ⟨[([1], [7, 8])], [], 0⟩ [1] 1
        (fun _ => 0)).2.2.2.store
      = (⟨[([1], [7, 8])], [], 0⟩ : TEEState).store
    ∧ (∀ orc2 : Nat → Nat,
        (read_raw_object (read_raw_object ⟨[([1], [7, 8])], [], 0⟩ [1] 1
          (fun _ => 0)).2.2.2 [1] 1 orc2).1 = TEE_Result.shortBuffer
        ∧ (read_raw_object (read_raw_object ⟨[([1], [7, 8])], [], 0⟩ [1]
            1 (fun _ => 0)).2.2.2 [1] 1 orc2).2.1
          = ([7, 8] : List Nat).length)
    ∧ (read_raw_object (read_raw_object ⟨[([1], [7, 8])], [], 0⟩ [1] 1
        (fun _ => 0)).2.2.2 [1] ([7, 8] : List Nat).length
        (honest_read [7, 8])).1 = TEE_Result.success
    ∧ (read_raw_object (read_raw_object ⟨[([1], [7, 8])], [], 0⟩ [1] 1
        (fun _ => 0)).2.2.2 [1] ([7, 8] : List Nat).length
        (honest_read [7, 8])).2.1 = ([7, 8] : List Nat).length :=
  read_short_buffer_negotiation ⟨[([1], [7, 8])], [], 0⟩ [1] [7, 8] 1
    (fun _ => 0) (by decide) (by decide)

end SecureStorage
